import Mathlib

/-!
Shallow embedding of `src/gsheet-update-triggered-email.js`
(version v3.0-PRODUCTION-FIXED), a Google Apps Script that sends a daily
update email and keeps successive runs in one Gmail conversation via a
persisted thread id.

External services (PropertiesService, GmailApp, SpreadsheetApp) are
modelled as explicit environments; a JavaScript exception thrown by a
provider call is modelled as an `Except.error` / a boolean throw-flag in
the environment, and the script's `try`/`catch` blocks as the
corresponding `match`/`if`.  Outbound mail-provider calls are recorded in
a trace of `Action`s so that theorems can talk about what was sent.
-/

namespace GSheetEmail

/-- The `CONFIG` object at the top of the script. -/
structure Config where
  dataSheetName : String
  formSheetName : String
  dataRangeToCopy : String
  commentColumnIndex : Nat
  emailSubject : String
  recipientEmail : String
  threadIdProperty : String
  scriptVersion : String
  deriving Repr

/-- The literal `CONFIG` of `src/gsheet-update-triggered-email.js`. -/
def CONFIG : Config where
  dataSheetName := "Daily Tracker"
  formSheetName := "Form Responses 1"
  dataRangeToCopy := "A1:D33"
  commentColumnIndex := 3
  emailSubject := "5:00a rise tracking update"
  recipientEmail := "inyourface@googlegroups.com"
  threadIdProperty := "riseTrackerThreadId"
  scriptVersion := "v3.0-PRODUCTION-FIXED"

/-- The secondary archival key written by `createNewThread`
(`lastKnownRiseTrackerThreadId` in the source). -/
def lastKnownKey : String := "lastKnownRiseTrackerThreadId"

/-- `PropertiesService.getScriptProperties()` as a key-value map. -/
def Props : Type := String → Option String

/-- `properties.getProperty(key)`. -/
def getProperty (props : Props) (key : String) : Option String := props key

/-- `properties.setProperty(key, value)`. -/
def setProperty (props : Props) (key value : String) : Props :=
  fun k => if k = key then some value else props k

theorem getProperty_setProperty_self (props : Props) (key value : String) :
    getProperty (setProperty props key value) key = some value := by
  simp [getProperty, setProperty]

theorem getProperty_setProperty_ne (props : Props) (key value k : String)
    (h : k ≠ key) : getProperty (setProperty props key value) k = getProperty props k := by
  simp [getProperty, setProperty, h]

/-! ### Regex matching used by `replyToExistingThread`

The script extracts headers from `firstMessage.getRawContent()` with
`rawContent.match(/Message-ID:\s*<([^>]+)>/i)` and
`rawContent.match(/References:\s*([^\r\n]+)/i)`.  Below these two regex
searches are embedded directly: scan the string left to right, at each
position try to match the pattern (ASCII case-insensitively for the
literal part, as the `i` flag does), and return the first capture. -/

/-- ASCII lower-casing of a character code, as the regex `i` flag compares
ASCII letters. -/
def lowerNat (c : Char) : Nat :=
  let n := c.toNat
  if 65 ≤ n ∧ n ≤ 90 then n + 32 else n

/-- Case-insensitive match of the literal pattern `pat` against a prefix of
`cs`; returns the remainder on success. -/
def matchCI : List Char → List Char → Option (List Char)
  | [], cs => some cs
  | _ :: _, [] => none
  | p :: ps, c :: cs => if lowerNat p = lowerNat c then matchCI ps cs else none

/-- The character class `\s` of JavaScript regexes, restricted to ASCII. -/
def isJsSpace (c : Char) : Bool :=
  c = ' ' || c = '\t' || c = '\n' || c = '\r' || c = '\x0b' || c = '\x0c'

/-- Carriage return or line feed (the class `[\r\n]`). -/
def isCRLF (c : Char) : Bool := c = '\r' || c = '\n'

/-- Try `/Message-ID:\s*<([^>]+)>/i` anchored at the start of `cs`;
returns the capture group. -/
def matchMessageIdAt (cs : List Char) : Option String :=
  match matchCI "message-id:".toList cs with
  | none => none
  | some rest =>
    match rest.dropWhile isJsSpace with
    | '<' :: rest2 =>
      let captured := rest2.takeWhile (fun c => c ≠ '>')
      match rest2.dropWhile (fun c => c ≠ '>') with
      | '>' :: _ => if captured.isEmpty then none else some (String.mk captured)
      | _ => none
    | _ => none

/-- Unanchored search for `/Message-ID:\s*<([^>]+)>/i`. -/
def findMessageIdAux : List Char → Option String
  | [] => none
  | c :: cs =>
    match matchMessageIdAt (c :: cs) with
    | some m => some m
    | none => findMessageIdAux cs

/-- `rawContent.match(/Message-ID:\s*<([^>]+)>/i)`, returning the capture
(`messageIdMatch[1]`). -/
def findMessageId (s : String) : Option String := findMessageIdAux s.toList

/-- Try `/References:\s*([^\r\n]+)/i` anchored at the start of `cs`.
The greedy `\s*` first consumes the whole whitespace run; if nothing
non-whitespace follows, it backtracks until `[^\r\n]+` can match a single
non-CRLF whitespace character. -/
def matchReferencesAt (cs : List Char) : Option String :=
  match matchCI "references:".toList cs with
  | none => none
  | some rest =>
    let w := rest.takeWhile isJsSpace
    match rest.dropWhile isJsSpace with
    | c :: cs2 => some (String.mk (c :: cs2.takeWhile (fun d => ¬ isCRLF d)))
    | [] =>
      match w.reverse.find? (fun d => ¬ isCRLF d) with
      | some d => some (String.mk [d])
      | none => none

/-- Unanchored search for `/References:\s*([^\r\n]+)/i`. -/
def findReferencesAux : List Char → Option String
  | [] => none
  | c :: cs =>
    match matchReferencesAt (c :: cs) with
    | some m => some m
    | none => findReferencesAux cs

/-- `rawContent.match(/References:\s*([^\r\n]+)/i)`, returning the capture
(`referencesMatch[1]`). -/
def findReferences (s : String) : Option String := findReferencesAux s.toList

/-- JavaScript `String.prototype.trim()` (ASCII whitespace). -/
def trimJs (s : String) : String :=
  String.mk (((s.toList.dropWhile isJsSpace).reverse.dropWhile isJsSpace).reverse)

/-! ### The Gmail environment and the threading functions -/

/-- A Gmail message, exposing only what the script reads. -/
structure GMessage where
  rawContent : String
  deriving Repr, DecidableEq

/-- A Gmail thread, exposing only what the script reads. -/
structure GThread where
  id : String
  firstMessageSubject : String
  messages : List GMessage
  deriving Repr, DecidableEq

/-- Behaviour of the GmailApp provider during one run.
`getThreadByIdResult` is `Except.error` when `GmailApp.getThreadById`
throws, `Except.ok none` when it returns `null` without throwing.
`freshThreadId` is the id of the thread produced by the draft-then-send
pattern in `createNewThread`.  The `…Throws` flags say whether the
corresponding provider send call throws. -/
structure GmailEnv where
  getThreadByIdResult : String → Except String (Option GThread)
  searchResult : String → List GThread
  nativeReplyThrows : Bool
  sendEmailThrows : Bool
  draftSendThrows : Bool
  freshThreadId : String

/-- One observable provider call made during a run. -/
inductive Action where
  /-- `GmailApp.getThreadById(tid)` was called. -/
  | directLookup (tid : String)
  /-- `GmailApp.search(query)` was called. -/
  | searchCall (query : String)
  /-- `lastMessage.reply("", {htmlBody})` — the degraded native reply. -/
  | nativeReply (htmlBody : String)
  /-- `GmailApp.sendEmail(recipient, subject, body, {htmlBody, headers})`
  with headers `In-Reply-To` and `References`. -/
  | sendEmail (recipient subject body htmlBody inReplyTo references : String)
  /-- `GmailApp.createDraft(recipient, subject, body, {htmlBody})` followed
  by `draft.send()`. -/
  | draftSend (recipient subject body htmlBody : String)
  deriving Repr, DecidableEq

/-- The tail of `replyToExistingThread` after `thread` has been resolved
(lines 325–381 of the source): bail out if no thread, read the messages,
extract the Message-ID from the first message's raw content, fall back to
a native reply when extraction fails, otherwise build the `References`
header and send with explicit threading headers.  An empty message list
makes `messages[0].getRawContent()` throw in JavaScript, landing in the
function's `catch` which returns `false`. -/
def replyWithThread (env : GmailEnv) (t? : Option GThread) (htmlBody : String)
    (trace : List Action) : Bool × List Action :=
  match t? with
  | none => (false, trace)
  | some thread =>
    match thread.messages with
    | [] => (false, trace)
    | firstMessage :: _ =>
      let rawContent := firstMessage.rawContent
      match findMessageId rawContent with
      | none =>
        if env.nativeReplyThrows then (false, trace)
        else (true, trace ++ [Action.nativeReply htmlBody])
      | some messageId =>
        let references :=
          match findReferences rawContent with
          | some r => trimJs r ++ " " ++ ("<" ++ messageId ++ ">")
          | none => "<" ++ messageId ++ ">"
        if env.sendEmailThrows then (false, trace)
        else
          (true, trace ++ [Action.sendEmail CONFIG.recipientEmail
            ("Re: " ++ thread.firstMessageSubject) "" htmlBody
            ("<" ++ messageId ++ ">") references])

/-- `replyToExistingThread(threadId, htmlBody)` (source lines 306–382).
The inner `try` around `GmailApp.getThreadById` falls back to
`GmailApp.search("thread:" + threadId)` only when the direct lookup
throws; a `null` result without a throw goes straight to the
`if (!thread)` check. -/
def replyToExistingThread (env : GmailEnv) (threadId htmlBody : String) :
    Bool × List Action :=
  match env.getThreadByIdResult threadId with
  | .ok t? => replyWithThread env t? htmlBody [Action.directLookup threadId]
  | .error _ =>
    let threads := env.searchResult ("thread:" ++ threadId)
    replyWithThread env threads.head? htmlBody
      [Action.directLookup threadId, Action.searchCall ("thread:" ++ threadId)]

/-- `createNewThread(htmlBody, properties)` (source lines 390–425): archive
any existing thread id under `lastKnownRiseTrackerThreadId`, then create a
draft and send it; on success persist the new thread's id.  A throw from
the draft/send step is caught and returns `false` — after the archival
write has already happened. -/
def createNewThread (env : GmailEnv) (htmlBody : String) (properties : Props) :
    Bool × Props × List Action :=
  let oldThreadId := getProperty properties CONFIG.threadIdProperty
  let properties1 :=
    match oldThreadId with
    | some old => setProperty properties lastKnownKey old
    | none => properties
  if env.draftSendThrows then (false, properties1, [])
  else
    let newThreadId := env.freshThreadId
    let properties2 := setProperty properties1 CONFIG.threadIdProperty newThreadId
    (true, properties2,
      [Action.draftSend CONFIG.recipientEmail CONFIG.emailSubject "" htmlBody])

/-- `sendThreadedEmail(htmlBody)` (source lines 261–298): read the stored
thread id; if present try `replyToExistingThread`, returning `true` on
success; otherwise (no stored id, or reply failed) fall through to
`createNewThread`. -/
def sendThreadedEmail (env : GmailEnv) (htmlBody : String) (properties : Props) :
    Bool × Props × List Action :=
  match getProperty properties CONFIG.threadIdProperty with
  | some storedThreadId =>
    let reply := replyToExistingThread env storedThreadId htmlBody
    if reply.1 then (true, properties, reply.2)
    else
      let created := createNewThread env htmlBody properties
      (created.1, created.2.1, reply.2 ++ created.2.2)
  | none => createNewThread env htmlBody properties

/-! ### The spreadsheet side and the top-level entry point -/

/-- A sheet, exposing only what the script reads.  `rangeResult` is the
outcome of `sheet.getRange(CONFIG.dataRangeToCopy).getDisplayValues()`
(`Except.error` when `getRange` throws on an invalid range);
`lastRow`/`cellValue` model `getLastRow()` and
`getRange(row, col).getValue()` on the form sheet. -/
structure Sheet where
  lastRow : Nat
  cellValue : Nat → Nat → String
  rangeResult : Except String (List (List String))

/-- Behaviour of the SpreadsheetApp provider during one run.
`spreadsheetThrows` models a throw from `getActiveSpreadsheet()` (or any
other call inside `getSpreadsheetData`'s own `try`). -/
structure SheetsEnv where
  spreadsheetThrows : Bool
  getSheetByName : String → Option Sheet

/-- The `{ comment, data }` object returned by `getSpreadsheetData`. -/
structure EmailData where
  comment : String
  data : List (List String)
  deriving Repr, DecidableEq

/-- `getDataSheetData(dataSheet)` (source lines 144–168): an invalid range
throws and is caught, yielding the `[["Error", "Loading Data"]]`
placeholder; an empty result yields `[["No Data", "Available"]]`;
otherwise the display values are returned as-is. -/
def getDataSheetData (dataSheet : Sheet) : List (List String) :=
  match dataSheet.rangeResult with
  | .error _ => [["Error", "Loading Data"]]
  | .ok data => if data.isEmpty then [["No Data", "Available"]] else data

/-- `getSpreadsheetData()` (source lines 89–137): `null` (here `none`) when
the provider throws or either configured sheet is missing; an empty form
sheet degrades to the placeholder comment `"No form submissions yet"`;
otherwise the comment is the last row's configured column. -/
def getSpreadsheetData (env : SheetsEnv) : Option EmailData :=
  if env.spreadsheetThrows then none
  else
    match env.getSheetByName CONFIG.dataSheetName with
    | none => none
    | some dataSheet =>
      match env.getSheetByName CONFIG.formSheetName with
      | none => none
      | some formSheet =>
        if formSheet.lastRow < 1 then
          some { comment := "No form submissions yet"
                 data := getDataSheetData dataSheet }
        else
          some { comment := formSheet.cellValue formSheet.lastRow CONFIG.commentColumnIndex
                 data := getDataSheetData dataSheet }

/-- One table cell of `createEmailBody` (`<td …>${cellContent}</td>`;
inline CSS whitespace elided). -/
def renderCell (isHeaderRow : Bool) (cellData : String) : String :=
  let fontWeight := if isHeaderRow then "bold" else "normal"
  let align := if isHeaderRow then "center" else "left"
  "<td style=\"border: 1px solid #cccccc; padding: 8px; font-weight: " ++
    fontWeight ++ "; text-align: " ++ align ++ ";\">" ++ cellData ++ "</td>"

/-- One table row of `createEmailBody`. -/
def renderRow (rowIndex : Nat) (row : List String) : String :=
  let backgroundColor := if rowIndex % 2 = 0 then "#f0f0f0" else "#ffffff"
  let isHeaderRow := rowIndex = 0
  let headerBg := if isHeaderRow then "#d4e6f1" else backgroundColor
  "<tr style=\"background-color: " ++ headerBg ++ ";\">" ++
    String.join (row.map (renderCell isHeaderRow)) ++ "</tr>"

/-- `createEmailBody(emailData)` (source lines 179–249), with `now` for
`new Date().toLocaleString()` and the template's HTML whitespace elided.
`${comment || 'No comment'}` tests JavaScript falsiness, which for a
string is emptiness. -/
def createEmailBody (now : String) (emailData : EmailData) : String :=
  let comment := if emailData.comment = "" then "No comment" else emailData.comment
  "<div style=\"font-family: Arial, sans-serif; max-width: 800px;\">" ++
    "<p><b>Comment:</b> " ++ comment ++ "</p>" ++
    "<h2>5:00a Rise Tracker</h2>" ++
    "<p>Sent: " ++ now ++ " | Script: " ++ CONFIG.scriptVersion ++ "</p>" ++
    "<table style=\"border-collapse: collapse; width: 100%;\">" ++
    String.join ((emailData.data.mapIdx fun i row => renderRow i row)) ++
    "</table>" ++
    "<p>Automated email from Google Apps Script (" ++ CONFIG.scriptVersion ++ ")</p>" ++
  "</div>"

/-- The full environment of one run. -/
structure Env where
  sheets : SheetsEnv
  gmail : GmailEnv
  /-- `PropertiesService.getScriptProperties()` / `getProperty` at the top
  of `sendThreadedEmail` sit outside that function's `try`, so a throw
  there propagates to `sendDailyUpdate`'s catch-all. -/
  propsServiceThrows : Bool
  now : String

/-- `sendThreadedEmail` as seen by its caller: the property-service reads
on lines 264–265 are outside the `try`, so they can throw out of the
function; everything else is caught inside. -/
def sendThreadedEmailE (env : Env) (htmlBody : String) (properties : Props) :
    Except String (Bool × Props × List Action) :=
  if env.propsServiceThrows then .error "PropertiesService failed"
  else .ok (sendThreadedEmail env.gmail htmlBody properties)

/-- What a run of `sendDailyUpdate` reports in its log. -/
inductive RunOutcome where
  /-- "Failed to get spreadsheet data - aborting" -/
  | aborted
  /-- "Daily update sent successfully" -/
  | success
  /-- "Failed to send daily update" -/
  | sendFailed
  /-- "CRITICAL ERROR in sendDailyUpdate: …" (caught by the top-level catch) -/
  | criticalError (msg : String)
  deriving Repr, DecidableEq

/-- `sendDailyUpdate()` (source lines 49–79).  The whole body is wrapped in
`try`/`catch`; the result type is `Except` to model that the JavaScript
function could in principle throw to its trigger — the catch-all turns
every internal error into an `.ok` outcome. -/
def sendDailyUpdate (env : Env) (properties : Props) :
    Except String (RunOutcome × Props × List Action) :=
  match getSpreadsheetData env.sheets with
  | none => .ok (.aborted, properties, [])
  | some emailData =>
    let htmlBody := createEmailBody env.now emailData
    match sendThreadedEmailE env htmlBody properties with
    | .error e => .ok (.criticalError e, properties, [])
    | .ok (success, properties2, acts) =>
      .ok (if success then .success else .sendFailed, properties2, acts)

/-- The `References` header of the first explicit-header send in a trace. -/
def sentReferences : List Action → Option String
  | [] => none
  | Action.sendEmail _ _ _ _ _ references :: _ => some references
  | _ :: rest => sentReferences rest

/-- The `In-Reply-To` header of the first explicit-header send in a trace. -/
def sentInReplyTo : List Action → Option String
  | [] => none
  | Action.sendEmail _ _ _ _ inReplyTo _ :: _ => some inReplyTo
  | _ :: rest => sentInReplyTo rest

/-! ### Concrete sample inputs used by witnesses and counterexamples -/

/-- An empty property store (first-ever run). -/
def props0 : Props := fun _ => none

/-- A property store whose current thread id is `"X"`. -/
def propsX : Props := fun k => if k = "riseTrackerThreadId" then some "X" else none

/-- Raw content of a thread's first message, with both a `Message-ID` and a
`References` header. -/
def sampleRaw : String :=
  "From: a@b.example\r\nSubject: Morning tracker\r\n" ++
  "References: <root@mail.example>\r\nMessage-ID: <first@mail.example>\r\n\r\nBody"

/-- Raw content of the most recent message of the same thread, carrying a
different `Message-ID` than the first message. -/
def sampleLastRaw : String := "Message-ID: <last@mail.example>\r\n\r\nBody2"

/-- Raw content without any extractable `Message-ID`. -/
def sampleRawNoMid : String := "From: a@b.example\r\nSubject: Morning tracker\r\n\r\nBody"

/-- A healthy two-message thread. -/
def sampleThread : GThread where
  id := "T1"
  firstMessageSubject := "Morning tracker"
  messages := [{ rawContent := sampleRaw }, { rawContent := sampleLastRaw }]

/-- A thread whose first message has no extractable `Message-ID`. -/
def threadNoMid : GThread where
  id := "T1"
  firstMessageSubject := "Morning tracker"
  messages := [{ rawContent := sampleRawNoMid }]

/-- Direct lookup finds `sampleThread`; nothing throws. -/
def gmailReplyOk : GmailEnv where
  getThreadByIdResult := fun _ => .ok (some sampleThread)
  searchResult := fun _ => []
  nativeReplyThrows := false
  sendEmailThrows := false
  draftSendThrows := false
  freshThreadId := "T2"

/-- Direct lookup finds `threadNoMid`; nothing throws. -/
def gmailNoMid : GmailEnv where
  getThreadByIdResult := fun _ => .ok (some threadNoMid)
  searchResult := fun _ => []
  nativeReplyThrows := false
  sendEmailThrows := false
  draftSendThrows := false
  freshThreadId := "T2"

/-- Direct lookup returns `null` without throwing, while a search for the
same id would have found the thread. -/
def gmailNullThenSearch : GmailEnv where
  getThreadByIdResult := fun _ => .ok none
  searchResult := fun _ => [sampleThread]
  nativeReplyThrows := false
  sendEmailThrows := false
  draftSendThrows := false
  freshThreadId := "T2"

/-- Direct lookup throws and the search finds nothing: the stored id is
unreachable by both methods. -/
def gmailUnreachable : GmailEnv where
  getThreadByIdResult := fun _ => .error "stale id"
  searchResult := fun _ => []
  nativeReplyThrows := false
  sendEmailThrows := false
  draftSendThrows := false
  freshThreadId := "T2"

/-- The stored id is unreachable and the draft-then-send step throws. -/
def gmailDraftThrows : GmailEnv where
  getThreadByIdResult := fun _ => .ok none
  searchResult := fun _ => []
  nativeReplyThrows := false
  sendEmailThrows := false
  draftSendThrows := true
  freshThreadId := "T2"

/-- A data sheet holding two display rows. -/
def sampleDataSheet : Sheet where
  lastRow := 0
  cellValue := fun _ _ => ""
  rangeResult := .ok [["Day", "Time"], ["Mon", "5:02"]]

/-- A data sheet whose configured range yields no rows. -/
def emptyRangeSheet : Sheet where
  lastRow := 0
  cellValue := fun _ _ => ""
  rangeResult := .ok []

/-- A form sheet with two rows whose last comment cell is "slept in". -/
def sampleFormSheet : Sheet where
  lastRow := 2
  cellValue := fun r c => if r = 2 ∧ c = 3 then "slept in" else ""
  rangeResult := .ok []

/-- Both configured sheets present. -/
def sheetsOk : SheetsEnv where
  spreadsheetThrows := false
  getSheetByName := fun n =>
    if n = "Daily Tracker" then some sampleDataSheet
    else if n = "Form Responses 1" then some sampleFormSheet
    else none

/-- The data sheet is missing. -/
def sheetsMissingData : SheetsEnv where
  spreadsheetThrows := false
  getSheetByName := fun n =>
    if n = "Form Responses 1" then some sampleFormSheet else none

/-- Both sheets present but the data range yields no rows. -/
def sheetsEmptyRange : SheetsEnv where
  spreadsheetThrows := false
  getSheetByName := fun n =>
    if n = "Daily Tracker" then some emptyRangeSheet
    else if n = "Form Responses 1" then some sampleFormSheet
    else none

/-- A run whose sheets are fine but whose new-thread creation throws. -/
def envC4 : Env where
  sheets := sheetsOk
  gmail := gmailDraftThrows
  propsServiceThrows := false
  now := "1/1/2025, 5:00:00 AM"

/-- A run with the data sheet missing and a healthy mail provider. -/
def envC8 : Env where
  sheets := sheetsMissingData
  gmail := gmailReplyOk
  propsServiceThrows := false
  now := "1/1/2025, 5:00:00 AM"

/-- A run with an empty data range and a healthy mail provider. -/
def envEmptyRange : Env where
  sheets := sheetsEmptyRange
  gmail := gmailReplyOk
  propsServiceThrows := false
  now := "1/1/2025, 5:00:00 AM"

/-! ### Theorems settling the claims -/

/-- The two persisted keys are distinct. -/
theorem threadIdProperty_ne_lastKnownKey : CONFIG.threadIdProperty ≠ lastKnownKey := by
  decide

/-- C2: for every prior state whose persisted thread id is `X`, a run in
which `replyToExistingThread` succeeds leaves the whole property store —
in particular the persisted thread id — untouched; and when the reply
fails it writes nothing either, the run being exactly `createNewThread`
on the original store. -/
theorem C2_reply_success_writes_nothing (env : GmailEnv) (htmlBody : String)
    (properties : Props) (X : String)
    (hstored : getProperty properties CONFIG.threadIdProperty = some X) :
    ((replyToExistingThread env X htmlBody).1 = true →
      sendThreadedEmail env htmlBody properties =
        (true, properties, (replyToExistingThread env X htmlBody).2)) ∧
    ((replyToExistingThread env X htmlBody).1 = false →
      sendThreadedEmail env htmlBody properties =
        ((createNewThread env htmlBody properties).1,
         (createNewThread env htmlBody properties).2.1,
         (replyToExistingThread env X htmlBody).2 ++
           (createNewThread env htmlBody properties).2.2)) := by
  unfold sendThreadedEmail
  rw [hstored]
  constructor
  · intro h; simp [h]
  · intro h; simp [h]

theorem C2_witness :
    getProperty propsX CONFIG.threadIdProperty = some "X" ∧
    sendThreadedEmail gmailReplyOk "body" propsX =
      (true, propsX, (replyToExistingThread gmailReplyOk "X" "body").2) :=
  ⟨by decide,
   (C2_reply_success_writes_nothing gmailReplyOk "body" propsX "X" (by decide)).1
     (by decide)⟩

/-- C3: for every prior state with no persisted thread id, a run in which
`createNewThread` succeeds persists a non-empty thread id equal to the id
of the conversation returned by the draft-then-send call
(`draft.send().getThread().getId()`, modelled as `env.freshThreadId`). -/
theorem C3_first_run_persists_new_id (env : GmailEnv) (htmlBody : String)
    (properties : Props)
    (hnone : getProperty properties CONFIG.threadIdProperty = none)
    (hdraft : env.draftSendThrows = false)
    (hfresh : env.freshThreadId ≠ "") :
    (sendThreadedEmail env htmlBody properties).1 = true ∧
    getProperty (sendThreadedEmail env htmlBody properties).2.1
        CONFIG.threadIdProperty = some env.freshThreadId ∧
    env.freshThreadId ≠ "" := by
  unfold sendThreadedEmail createNewThread
  rw [hnone, hdraft]
  simp only [Bool.false_eq_true, if_false]
  refine ⟨by simp, ?_, hfresh⟩
  simp [getProperty_setProperty_self]

theorem C3_witness :
    getProperty props0 CONFIG.threadIdProperty = none ∧
    (sendThreadedEmail gmailReplyOk "body" props0).1 = true ∧
    getProperty (sendThreadedEmail gmailReplyOk "body" props0).2.1
        CONFIG.threadIdProperty = some gmailReplyOk.freshThreadId ∧
    gmailReplyOk.freshThreadId ≠ "" :=
  ⟨rfl, C3_first_run_persists_new_id gmailReplyOk "body" props0 rfl rfl (by decide)⟩

/-- C7: when the thread is found but no `Message-ID` can be extracted from
the first message's raw content by the pattern match, the reply degrades
to the provider-native `lastMessage.reply` and still reports success. -/
theorem C7_no_message_id_degrades (env : GmailEnv) (tid htmlBody : String)
    (thread : GThread) (m : GMessage) (rest : List GMessage)
    (hlookup : env.getThreadByIdResult tid = .ok (some thread))
    (hmsgs : thread.messages = m :: rest)
    (hmid : findMessageId m.rawContent = none)
    (hreply : env.nativeReplyThrows = false) :
    replyToExistingThread env tid htmlBody =
      (true, [Action.directLookup tid, Action.nativeReply htmlBody]) := by
  simp only [replyToExistingThread, hlookup]
  simp only [replyWithThread, hmsgs, hmid, hreply]
  simp

theorem C7_witness :
    findMessageId sampleRawNoMid = none ∧
    replyToExistingThread gmailNoMid "T1" "body" =
      (true, [Action.directLookup "T1", Action.nativeReply "body"]) :=
  ⟨by decide,
   C7_no_message_id_degrades gmailNoMid "T1" "body" threadNoMid
     { rawContent := sampleRawNoMid } [] rfl rfl (by decide) rfl⟩

/-- Helper: `createNewThread` when a thread id is stored and the
draft-then-send step does not throw. -/
theorem createNewThread_with_stored (env : GmailEnv) (htmlBody : String)
    (properties : Props) (X : String)
    (hstored : getProperty properties CONFIG.threadIdProperty = some X)
    (hdraft : env.draftSendThrows = false) :
    createNewThread env htmlBody properties =
      (true,
       setProperty (setProperty properties lastKnownKey X)
         CONFIG.threadIdProperty env.freshThreadId,
       [Action.draftSend CONFIG.recipientEmail CONFIG.emailSubject "" htmlBody]) := by
  unfold createNewThread
  rw [hstored, hdraft]
  simp

/-- C1: for every prior state whose persisted thread id `X` is unreachable
by both the direct lookup and the search method, a run in which
`createNewThread` succeeds persists a thread id different from `X` (the
fresh conversation id is distinct from the stale one) and archives `X`
under the secondary last-known key. -/
theorem C1_unreachable_id_superseded_and_archived (env : GmailEnv)
    (htmlBody : String) (properties : Props) (X err : String)
    (hstored : getProperty properties CONFIG.threadIdProperty = some X)
    (hdirect : env.getThreadByIdResult X = .ok none ∨
               env.getThreadByIdResult X = .error err)
    (hsearch : env.searchResult ("thread:" ++ X) = [])
    (hdraft : env.draftSendThrows = false)
    (hfresh : env.freshThreadId ≠ X) :
    (sendThreadedEmail env htmlBody properties).1 = true ∧
    getProperty (sendThreadedEmail env htmlBody properties).2.1
        CONFIG.threadIdProperty ≠ some X ∧
    getProperty (sendThreadedEmail env htmlBody properties).2.1
        lastKnownKey = some X := by
  have hreply : (replyToExistingThread env X htmlBody).1 = false := by
    rcases hdirect with h | h
    · simp [replyToExistingThread, h, replyWithThread]
    · simp [replyToExistingThread, h, hsearch, replyWithThread]
  have hcreate := createNewThread_with_stored env htmlBody properties X hstored hdraft
  unfold sendThreadedEmail
  rw [hstored]
  simp only [hreply, Bool.false_eq_true, if_false, hcreate]
  refine ⟨trivial, ?_, ?_⟩
  · rw [getProperty_setProperty_self]
    intro h
    exact hfresh (by injection h)
  · rw [getProperty_setProperty_ne _ _ _ _ (Ne.symm threadIdProperty_ne_lastKnownKey),
        getProperty_setProperty_self]

theorem C1_witness :
    getProperty propsX CONFIG.threadIdProperty = some "X" ∧
    (sendThreadedEmail gmailUnreachable "body" propsX).1 = true ∧
    getProperty (sendThreadedEmail gmailUnreachable "body" propsX).2.1
        CONFIG.threadIdProperty ≠ some "X" ∧
    getProperty (sendThreadedEmail gmailUnreachable "body" propsX).2.1
        lastKnownKey = some "X" :=
  ⟨by decide,
   C1_unreachable_id_superseded_and_archived gmailUnreachable "body" propsX
     "X" "stale id" (by decide) (Or.inr rfl) rfl rfl (by decide)⟩

/-- C6: when a reply is sent via the explicit-headers path, the outbound
`References` header is exactly the bracketed extracted message id when the
first message's raw content has no `References` header, and is the
existing header value `R` (the regex capture, which the script passes
through `trim()`; for any `R` without surrounding whitespace this is `R`
itself) followed by a space and the bracketed message id otherwise. -/
theorem C6_references_accumulation (env : GmailEnv) (tid htmlBody : String)
    (thread : GThread) (m : GMessage) (rest : List GMessage) (mid : String)
    (hlookup : env.getThreadByIdResult tid = .ok (some thread))
    (hmsgs : thread.messages = m :: rest)
    (hmid : findMessageId m.rawContent = some mid)
    (hsend : env.sendEmailThrows = false) :
    (findReferences m.rawContent = none →
      sentReferences (replyToExistingThread env tid htmlBody).2 =
        some ("<" ++ mid ++ ">")) ∧
    (∀ r, findReferences m.rawContent = some r →
      sentReferences (replyToExistingThread env tid htmlBody).2 =
        some (trimJs r ++ " " ++ ("<" ++ mid ++ ">"))) ∧
    (∀ r, findReferences m.rawContent = some r → trimJs r = r →
      sentReferences (replyToExistingThread env tid htmlBody).2 =
        some (r ++ " " ++ ("<" ++ mid ++ ">"))) := by
  refine ⟨?_, ?_, ?_⟩
  · intro h
    simp only [replyToExistingThread, hlookup, replyWithThread, hmsgs, hmid, hsend, h]
    simp [sentReferences]
  · intro r h
    simp only [replyToExistingThread, hlookup, replyWithThread, hmsgs, hmid, hsend, h]
    simp [sentReferences]
  · intro r h ht
    simp only [replyToExistingThread, hlookup, replyWithThread, hmsgs, hmid, hsend, h, ht]
    simp [sentReferences]

theorem C6_witness :
    findMessageId sampleRaw = some "first@mail.example" ∧
    findReferences sampleRaw = some "<root@mail.example>" ∧
    sentReferences (replyToExistingThread gmailReplyOk "T1" "body").2 =
      some "<root@mail.example> <first@mail.example>" :=
  ⟨by decide, by decide,
   ((C6_references_accumulation gmailReplyOk "T1" "body" sampleThread
       { rawContent := sampleRaw } [{ rawContent := sampleLastRaw }]
       "first@mail.example" rfl rfl (by decide) rfl).2.2
     "<root@mail.example>" (by decide) (by decide)).trans (by decide)⟩

/-- C10: every reply sent via the explicit-headers path sets `In-Reply-To`
to the bracketed `Message-ID` extracted from the thread's first message
(the head of `getMessages()`), and its subject is `"Re: "` followed by the
thread's first-message subject — which is never the configured
`CONFIG.emailSubject`. -/
theorem C10_reply_uses_first_message (env : GmailEnv) (tid htmlBody : String)
    (thread : GThread) (m : GMessage) (rest : List GMessage) (mid : String)
    (hlookup : env.getThreadByIdResult tid = .ok (some thread))
    (hmsgs : thread.messages = m :: rest)
    (hmid : findMessageId m.rawContent = some mid)
    (hsend : env.sendEmailThrows = false) :
    (∃ references, replyToExistingThread env tid htmlBody =
      (true, [Action.directLookup tid,
        Action.sendEmail CONFIG.recipientEmail
          ("Re: " ++ thread.firstMessageSubject) "" htmlBody
          ("<" ++ mid ++ ">") references])) ∧
    "Re: " ++ thread.firstMessageSubject ≠ CONFIG.emailSubject := by
  constructor
  · refine ⟨match findReferences m.rawContent with
            | some r => trimJs r ++ " " ++ ("<" ++ mid ++ ">")
            | none => "<" ++ mid ++ ">", ?_⟩
    simp only [replyToExistingThread, hlookup, replyWithThread, hmsgs, hmid, hsend]
    simp
  · intro h
    have h2 : ("Re: " ++ thread.firstMessageSubject).data.head? = some 'R' := by
      rw [String.data_append]; rfl
    rw [h] at h2
    exact absurd h2 (by decide)

theorem C10_witness :
    findMessageId sampleRaw = some "first@mail.example" ∧
    findMessageId sampleLastRaw = some "last@mail.example" ∧
    (∃ references, replyToExistingThread gmailReplyOk "T1" "body" =
      (true, [Action.directLookup "T1",
        Action.sendEmail CONFIG.recipientEmail
          ("Re: " ++ sampleThread.firstMessageSubject) "" "body"
          ("<" ++ "first@mail.example" ++ ">") references])) ∧
    "Re: " ++ sampleThread.firstMessageSubject ≠ CONFIG.emailSubject :=
  ⟨by decide, by decide,
   C10_reply_uses_first_message gmailReplyOk "T1" "body" sampleThread
     { rawContent := sampleRaw } [{ rawContent := sampleLastRaw }]
     "first@mail.example" rfl rfl (by decide) rfl⟩

/-- Helper: `replyWithThread` only appends to the trace it is given. -/
theorem replyWithThread_trace_extends (env : GmailEnv) (t? : Option GThread)
    (htmlBody : String) (trace : List Action) (a : Action) (ha : a ∈ trace) :
    a ∈ (replyWithThread env t? htmlBody trace).2 := by
  unfold replyWithThread
  rcases t? with _ | thread
  · exact ha
  · dsimp only
    cases hm : thread.messages with
    | nil => exact ha
    | cons m rest =>
      dsimp only
      cases hmid : findMessageId m.rawContent with
      | none =>
        cases hn : env.nativeReplyThrows
        · simpa using Or.inl ha
        · simpa using ha
      | some mid =>
        cases hs : env.sendEmailThrows
        · simpa using Or.inl ha
        · simpa using ha

/-- C5 counterexample: a stored id whose direct lookup returns no
conversation (without throwing) makes the reply conclude failure with no
search call in the trace, even though the search method would have found
the thread. -/
theorem C5_counterexample :
    gmailNullThenSearch.getThreadByIdResult "X" = .ok none ∧
    gmailNullThenSearch.searchResult ("thread:" ++ "X") = [sampleThread] ∧
    replyToExistingThread gmailNullThenSearch "X" "body" =
      (false, [Action.directLookup "X"]) ∧
    Action.searchCall ("thread:" ++ "X") ∉
      (replyToExistingThread gmailNullThenSearch "X" "body").2 :=
  ⟨rfl, rfl, by decide, by decide⟩

/-- C5 (amended): the search fallback keyed on the identifier is attempted
whenever the direct lookup-by-id throws; when the direct lookup returns no
conversation without throwing, the reply concludes failure without
attempting the search. -/
theorem C5_amended_search_only_after_throw (env : GmailEnv)
    (tid htmlBody e : String) :
    (env.getThreadByIdResult tid = .error e →
      Action.searchCall ("thread:" ++ tid) ∈
        (replyToExistingThread env tid htmlBody).2) ∧
    (env.getThreadByIdResult tid = .ok none →
      replyToExistingThread env tid htmlBody =
        (false, [Action.directLookup tid])) := by
  constructor
  · intro h
    unfold replyToExistingThread
    rw [h]
    exact replyWithThread_trace_extends _ _ _ _ _ (by simp)
  · intro h
    unfold replyToExistingThread
    rw [h]
    rfl

theorem C5_amended_witness :
    gmailUnreachable.getThreadByIdResult "X" = .error "stale id" ∧
    Action.searchCall ("thread:" ++ "X") ∈
      (replyToExistingThread gmailUnreachable "X" "body").2 :=
  ⟨rfl,
   (C5_amended_search_only_after_throw gmailUnreachable "X" "body" "stale id").1 rfl⟩

/-- Helper: `createNewThread` when no thread id is stored. -/
theorem createNewThread_no_stored (env : GmailEnv) (htmlBody : String)
    (properties : Props)
    (hnone : getProperty properties CONFIG.threadIdProperty = none) :
    createNewThread env htmlBody properties =
      if env.draftSendThrows then (false, properties, [])
      else (true, setProperty properties CONFIG.threadIdProperty env.freshThreadId,
            [Action.draftSend CONFIG.recipientEmail CONFIG.emailSubject "" htmlBody]) := by
  unfold createNewThread
  rw [hnone]

/-- Helper: `createNewThread` when a thread id is stored and the
draft-then-send step throws: the archival write has already happened. -/
theorem createNewThread_with_stored_throw (env : GmailEnv) (htmlBody : String)
    (properties : Props) (X : String)
    (hstored : getProperty properties CONFIG.threadIdProperty = some X)
    (hdraft : env.draftSendThrows = true) :
    createNewThread env htmlBody properties =
      (false, setProperty properties lastKnownKey X, []) := by
  unfold createNewThread
  rw [hstored, hdraft]
  simp

/-- Helper: `sendThreadedEmail` with a stored id, expressed by cases on the
reply outcome. -/
theorem sendThreadedEmail_stored_cases (env : GmailEnv) (htmlBody : String)
    (properties : Props) (X : String)
    (hstored : getProperty properties CONFIG.threadIdProperty = some X) :
    sendThreadedEmail env htmlBody properties =
      if (replyToExistingThread env X htmlBody).1 then
        (true, properties, (replyToExistingThread env X htmlBody).2)
      else
        ((createNewThread env htmlBody properties).1,
         (createNewThread env htmlBody properties).2.1,
         (replyToExistingThread env X htmlBody).2 ++
           (createNewThread env htmlBody properties).2.2) := by
  unfold sendThreadedEmail
  rw [hstored]

/-- Helper: after a failed `sendThreadedEmail`, the current thread id key is
unchanged and the last-known key is either unchanged or holds the thread
id that was stored at entry. -/
theorem sendThreadedEmail_failed_state (env : GmailEnv) (htmlBody : String)
    (properties : Props)
    (hfail : (sendThreadedEmail env htmlBody properties).1 = false) :
    getProperty (sendThreadedEmail env htmlBody properties).2.1
        CONFIG.threadIdProperty = getProperty properties CONFIG.threadIdProperty ∧
    (getProperty (sendThreadedEmail env htmlBody properties).2.1 lastKnownKey =
        getProperty properties lastKnownKey ∨
     getProperty (sendThreadedEmail env htmlBody properties).2.1 lastKnownKey =
        getProperty properties CONFIG.threadIdProperty) := by
  cases hst : getProperty properties CONFIG.threadIdProperty with
  | none =>
    have hrun : sendThreadedEmail env htmlBody properties =
        createNewThread env htmlBody properties := by
      unfold sendThreadedEmail
      rw [hst]
    rw [hrun, createNewThread_no_stored env htmlBody properties hst] at hfail ⊢
    cases hd : env.draftSendThrows
    · simp [hd] at hfail
    · simp [hst]
  | some X =>
    have hrun := sendThreadedEmail_stored_cases env htmlBody properties X hst
    rw [hrun] at hfail ⊢
    cases hr : (replyToExistingThread env X htmlBody).1
    · simp only [hr, Bool.false_eq_true, if_false] at hfail ⊢
      cases hd : env.draftSendThrows
      · rw [createNewThread_with_stored env htmlBody properties X hst hd] at hfail
        simp at hfail
      · rw [createNewThread_with_stored_throw env htmlBody properties X hst hd]
        dsimp only
        rw [getProperty_setProperty_ne _ _ _ _ threadIdProperty_ne_lastKnownKey,
            getProperty_setProperty_self]
        exact ⟨hst, Or.inr rfl⟩
    · simp [hr] at hfail

/-- C4 counterexample: a run that is reported failed (`sendFailed`) in
which the last-known archival key was nevertheless changed from absent to
`"X"` — a partial write on a failed run. -/
theorem C4_counterexample :
    sendDailyUpdate envC4 propsX =
      .ok (RunOutcome.sendFailed, setProperty propsX lastKnownKey "X",
           [Action.directLookup "X"]) ∧
    getProperty propsX lastKnownKey = none ∧
    getProperty (setProperty propsX lastKnownKey "X") lastKnownKey = some "X" :=
  ⟨rfl, rfl, rfl⟩

/-- C4 (amended): on every run that does not report success, the current
thread id key is left exactly as it was at entry, and the last-known
archival key is either unchanged or holds the thread id that was stored at
entry (the one partial write the failed new-thread path can leave behind). -/
theorem C4_amended_failed_run_state (env : Env) (properties : Props)
    (out : RunOutcome) (properties2 : Props) (acts : List Action)
    (hrun : sendDailyUpdate env properties = .ok (out, properties2, acts))
    (hfail : out ≠ RunOutcome.success) :
    getProperty properties2 CONFIG.threadIdProperty =
      getProperty properties CONFIG.threadIdProperty ∧
    (getProperty properties2 lastKnownKey = getProperty properties lastKnownKey ∨
     getProperty properties2 lastKnownKey =
       getProperty properties CONFIG.threadIdProperty) := by
  unfold sendDailyUpdate at hrun
  cases hS : getSpreadsheetData env.sheets with
  | none =>
    rw [hS] at hrun
    simp only [Except.ok.injEq, Prod.mk.injEq] at hrun
    obtain ⟨h1, h2, h3⟩ := hrun
    subst h2
    exact ⟨rfl, Or.inl rfl⟩
  | some emailData =>
    rw [hS] at hrun
    unfold sendThreadedEmailE at hrun
    dsimp only at hrun
    cases hp : env.propsServiceThrows
    · rw [hp] at hrun
      rcases hE : sendThreadedEmail env.gmail (createEmailBody env.now emailData)
          properties with ⟨b, p2, a⟩
      rw [hE] at hrun
      simp only [Bool.false_eq_true, if_false, Except.ok.injEq, Prod.mk.injEq] at hrun
      obtain ⟨h1, h2, h3⟩ := hrun
      subst h2
      cases b
      · have hstate := sendThreadedEmail_failed_state env.gmail
          (createEmailBody env.now emailData) properties (by rw [hE])
        rw [hE] at hstate
        simpa using hstate
      · exact absurd h1.symm (by simpa using hfail)
    · rw [hp] at hrun
      simp only [if_true, Except.ok.injEq, Prod.mk.injEq] at hrun
      obtain ⟨h1, h2, h3⟩ := hrun
      subst h2
      exact ⟨rfl, Or.inl rfl⟩

theorem C4_amended_witness :
    getProperty (setProperty propsX lastKnownKey "X") CONFIG.threadIdProperty =
      getProperty propsX CONFIG.threadIdProperty ∧
    (getProperty (setProperty propsX lastKnownKey "X") lastKnownKey =
        getProperty propsX lastKnownKey ∨
     getProperty (setProperty propsX lastKnownKey "X") lastKnownKey =
        getProperty propsX CONFIG.threadIdProperty) :=
  C4_amended_failed_run_state envC4 propsX RunOutcome.sendFailed
    (setProperty propsX lastKnownKey "X") [Action.directLookup "X"] rfl (by decide)

/-- Helper: when the fetch step succeeds and the property service does not
throw, a run reports either success or send-failure (it reaches the send
step rather than aborting). -/
theorem sendDailyUpdate_outcome (env : Env) (properties : Props) (d : EmailData)
    (hd : getSpreadsheetData env.sheets = some d)
    (hps : env.propsServiceThrows = false) :
    ∀ out properties2 acts,
      sendDailyUpdate env properties = .ok (out, properties2, acts) →
      out = RunOutcome.success ∨ out = RunOutcome.sendFailed := by
  intro out properties2 acts hrun
  unfold sendDailyUpdate sendThreadedEmailE at hrun
  rw [hd, hps] at hrun
  dsimp only at hrun
  rcases hE : sendThreadedEmail env.gmail (createEmailBody env.now d)
      properties with ⟨b, p2, a⟩
  rw [hE] at hrun
  simp only [Bool.false_eq_true, if_false, Except.ok.injEq, Prod.mk.injEq] at hrun
  obtain ⟨h1, _, _⟩ := hrun
  cases b
  · exact Or.inr (by simpa using h1.symm)
  · exact Or.inl (by simpa using h1.symm)

/-- C8 counterexample: with the data sheet missing and a fully healthy mail
provider, the run aborts with no placeholder and no send attempt at all
(empty action trace), contradicting the claim that a missing sheet
degrades to a placeholder row and the run still attempts a send. -/
theorem C8_counterexample :
    sheetsMissingData.getSheetByName CONFIG.dataSheetName = none ∧
    envC8.gmail.draftSendThrows = false ∧
    getSpreadsheetData sheetsMissingData = none ∧
    sendDailyUpdate envC8 props0 = .ok (RunOutcome.aborted, props0, []) :=
  ⟨rfl, rfl, rfl, rfl⟩

/-- C8 (amended): a missing data or form sheet aborts the run without a
send; degraded-content placeholders and a still-attempted send happen for
the other fetch failures — an empty configured range yields the
`[["No Data", "Available"]]` row, an invalid range the
`[["Error", "Loading Data"]]` row, an empty form sheet the placeholder
comment — and with both sheets present the run always reaches the send
step (it reports success or send-failure, never an abort). -/
theorem C8_amended_placeholders (env : Env) (properties : Props) (ds fs : Sheet)
    (hds : env.sheets.getSheetByName CONFIG.dataSheetName = some ds)
    (hfs : env.sheets.getSheetByName CONFIG.formSheetName = some fs)
    (hsp : env.sheets.spreadsheetThrows = false)
    (hps : env.propsServiceThrows = false) :
    (ds.rangeResult = .ok [] → getDataSheetData ds = [["No Data", "Available"]]) ∧
    (∀ e, ds.rangeResult = .error e →
      getDataSheetData ds = [["Error", "Loading Data"]]) ∧
    (fs.lastRow < 1 →
      getSpreadsheetData env.sheets =
        some { comment := "No form submissions yet", data := getDataSheetData ds }) ∧
    (∀ out properties2 acts,
      sendDailyUpdate env properties = .ok (out, properties2, acts) →
      out = RunOutcome.success ∨ out = RunOutcome.sendFailed) := by
  have hfetch : ∃ d, getSpreadsheetData env.sheets = some d := by
    unfold getSpreadsheetData
    rw [hsp, hds, hfs]
    by_cases h : fs.lastRow < 1 <;> simp [h]
  refine ⟨?_, ?_, ?_, ?_⟩
  · intro h
    simp [getDataSheetData, h]
  · intro e h
    simp [getDataSheetData, h]
  · intro h
    unfold getSpreadsheetData
    rw [hsp, hds, hfs]
    simp [h]
  · obtain ⟨d, hd⟩ := hfetch
    exact sendDailyUpdate_outcome env properties d hd hps

theorem C8_amended_witness :
    getDataSheetData emptyRangeSheet = [["No Data", "Available"]] ∧
    (∀ out properties2 acts,
      sendDailyUpdate envEmptyRange props0 = .ok (out, properties2, acts) →
      out = RunOutcome.success ∨ out = RunOutcome.sendFailed) :=
  ⟨(C8_amended_placeholders envEmptyRange props0 emptyRangeSheet sampleFormSheet
      rfl rfl rfl rfl).1 rfl,
   (C8_amended_placeholders envEmptyRange props0 emptyRangeSheet sampleFormSheet
      rfl rfl rfl rfl).2.2.2⟩

/-- C9: for every environment — including ones where the spreadsheet
provider, the property service, or any mail call throws — the top-level
entry point `sendDailyUpdate` returns normally (`Except.ok`); the
catch-all converts every internal error into a logged outcome and no
exception propagates to the trigger. -/
theorem C9_top_level_catches_all (env : Env) (properties : Props) :
    ∃ r, sendDailyUpdate env properties = Except.ok r := by
  unfold sendDailyUpdate sendThreadedEmailE
  cases hS : getSpreadsheetData env.sheets with
  | none => exact ⟨_, rfl⟩
  | some d =>
    cases hp : env.propsServiceThrows with
    | false =>
      dsimp only
      rcases hE : sendThreadedEmail env.gmail (createEmailBody env.now d)
          properties with ⟨b, p2, a⟩
      exact ⟨_, rfl⟩
    | true => exact ⟨_, rfl⟩

end GSheetEmail
